import Mathlib

/-!
# Verification of the revops lead-router workflow core

Shallow embedding of the lead-routing pipeline: the state record
(`graph/state.py`), the six stage functions (`graph/nodes/*.py`), the branch
decision and graph wiring (`app.py`), and the idempotency guard
(`tools/idempotency.py`).  External collaborators (enrichment provider, CRM,
model scorer, similarity lookup) are modelled as oracle parameters of type
`Except`, matching the stage-level try/except structure of the source.
Python floats are modelled as exact rationals; Python dict truthiness of
optional string fields is modelled explicitly.
-/

namespace LeadRouter

/-! ## Python string primitives

The Python string methods used by the source (`lower`, `upper`, `strip`,
`replace`, `split`, `endswith`, substring `in`) are modelled character-wise
over `List Char`; ASCII case mapping matches Python on the ASCII payloads
the system handles. -/

/-- Python `s.lower()`. -/
def pyLower (s : String) : String := ⟨s.data.map Char.toLower⟩

/-- Python `s.upper()`. -/
def pyUpper (s : String) : String := ⟨s.data.map Char.toUpper⟩

/-- Python `s.strip()`: drop leading and trailing whitespace. -/
def pyStrip (s : String) : String :=
  ⟨((s.data.dropWhile Char.isWhitespace).reverse.dropWhile
      Char.isWhitespace).reverse⟩

/-- Python `s.endswith(suffix)`. -/
def pyEndsWith (s suffix : String) : Bool :=
  suffix.data.reverse.isPrefixOf s.data.reverse

/-- Replace every (leftmost, non-overlapping) occurrence of `old` by `new`;
`fuel` bounds the recursion and is instantiated with the string length,
which each step consumes at least one character of. -/
def replaceChars (old new : List Char) : Nat → List Char → List Char
  | _, [] => []
  | 0, s => s
  | fuel + 1, c :: rest =>
      if old.isPrefixOf (c :: rest) then
        new ++ replaceChars old new fuel (rest.drop (old.length - 1))
      else
        c :: replaceChars old new fuel rest

/-- Python `s.replace(old, new)` for non-empty `old`. -/
def pyReplace (s old new : String) : String :=
  ⟨replaceChars old.data new.data s.data.length s.data⟩

/-- Python `s.split("/")[0]`: the prefix before the first `/` (the whole
string when there is none). -/
def pySplitSlashHead (s : String) : String :=
  ⟨s.data.takeWhile (fun c => c != '/')⟩

/-- `needle in hay` for character lists: Python substring containment. -/
def subChars (needle : List Char) : List Char → Bool
  | [] => needle.isEmpty
  | c :: rest => needle.isPrefixOf (c :: rest) || subChars needle rest

/-- Python `needle in hay` on strings. -/
def containsSub (needle hay : String) : Bool :=
  subChars needle.data hay.data

/-- Python truthiness of an optional string value: `None` and `""` are falsy. -/
def truthy : Option String → Bool
  | none => false
  | some s => s != ""

/-- Python `a or b` on two optional strings: the first truthy operand, else
the second operand as-is. -/
def pyOr (a b : Option String) : Option String :=
  if truthy a then a else b

/-- Python `a or b` where the fallback is a plain string. -/
def pyOrStr (a : Option String) (b : String) : String :=
  match a with
  | none => b
  | some v => if v == "" then b else v

/-- The webhook payload fields read by `capture` (`graph/nodes/capture.py`).
`properties_email_value` stands for `raw["properties"]["email"]["value"]` and
`properties_company` for `raw["properties"]["company"]`; an absent key is
`none`. -/
structure Payload where
  id : Option String := none
  email : Option String := none
  properties_email_value : Option String := none
  company : Option String := none
  company_name : Option String := none
  properties_company : Option String := none
  website : Option String := none
  domain : Option String := none
  full_name : Option String := none
  first_name : Option String := none
  last_name : Option String := none
  country : Option String := none
  title : Option String := none
  source : Option String := none
  deriving DecidableEq

/-- The `normalized` map built by `capture`: `email`, `domain`, `full_name`
are always strings (possibly empty); the others keep Python `None`. -/
structure Normalized where
  email : String
  company : Option String
  domain : String
  full_name : String
  country : Option String
  title : Option String
  source : Option String
  deriving DecidableEq

/-- The `enrichment["company"]` sub-map as read by `rule_score` and `route`:
`employees` (default 0), `industry` (default ""), `tech` (default []). -/
structure CompanyData where
  employees : Option Int := none
  industry : Option String := none
  tech : Option (List String) := none
  deriving DecidableEq

/-- The `enrichment["person"]` sub-map (not read by the scoring rules). -/
structure PersonData where
  email : Option String := none
  deriving DecidableEq

/-- The `enrichment` map: nested `company` and `person` maps.  The empty dict
`{}` stored on degradation is the record with both keys absent. -/
structure Enr where
  company : Option CompanyData := none
  person : Option PersonData := none
  deriving DecidableEq

/-- Error entries appended to `state["errors"]`, one constructor per call
site, keeping the data each Python f-string interpolates. -/
inductive ErrEntry where
  | missingRequired (fields : List String)
  | enrichFailed (cause : String)
  | llmFailed (cause : String)
  | routingFailed (cause : String)
  | crmFailed (cause : String)
  | llmSummaryFailed (cause : String)
  | summarizeFailed (cause : String)
  deriving DecidableEq

/-- `route_reason` values: the matched-territory trace string
`"Matched territory {country} -> {owner}"` or the fallback reason
`"Fallback to default owner due to routing error"`. -/
inductive RouteReason where
  | matched (country owner : String)
  | fallbackRoutingError
  deriving DecidableEq

/-- `state["summary"]` values: the model text, the deterministic template
built from `normalized` and `score`, or the outer-failure constant. -/
inductive Summary where
  | fromModel (txt : String)
  | template (n : Option Normalized) (score : ℚ)
  | generationFailed
  deriving DecidableEq

/-- Opaque similar-account record returned by the similarity collaborator. -/
structure SimAccount where
  tag : String
  deriving DecidableEq

/-- The `nurture_data` record synthesized by `nurture` (its two constant
fields `entry_date`/`revisit_date` are omitted; the state-dependent fields
are kept). -/
structure NurtureData where
  sequence_name : String
  score : ℚ
  reasons : List String
  deriving DecidableEq

/-- The `LeadState` record of `graph/state.py`, plus the extra keys written
by `nurture`.  A field is `none` while its key is absent.  `crm_record_id`
distinguishes key-absent (outer `none`) from key-set-to-`None`
(`some none`).  `dpWrites` is a ghost counter incremented at every program
point that assigns `state["decided_path"]`. -/
structure LeadState where
  lead_id : Option String := none
  raw : Payload
  normalized : Option Normalized := none
  enrichment : Option Enr := none
  score : Option ℚ := none
  score_reasons : List String := []
  owner : Option String := none
  route_reason : Option RouteReason := none
  similar_accounts : Option (List SimAccount) := none
  crm_record_id : Option (Option String) := none
  notifications : List String := []
  errors : List ErrEntry := []
  decided_path : Option String := none
  summary : Option Summary := none
  nurture_data : Option NurtureData := none
  nurture_task : Option (Option String) := none
  email_sequence : Bool := false
  dpWrites : Nat := 0
  deriving DecidableEq

/-- The initial state built by the webhook handler in `app.py`: the raw
payload plus empty `errors`, `notifications`, `score_reasons`. -/
def initState (p : Payload) : LeadState := { raw := p }

/-! ## Capture stage (`graph/nodes/capture.py`) -/

/-- The normalization block of `capture`. -/
def normalize (raw : Payload) : Normalized :=
  let email :=
    pyLower (pyOrStr raw.email (raw.properties_email_value.getD ""))
  let company := pyOr (pyOr raw.company raw.company_name) raw.properties_company
  let domain :=
    pySplitSlashHead (pyReplace
      (pyReplace (pyOrStr raw.website (pyOrStr raw.domain "")) "https://" "")
      "http://" "")
  let full_name :=
    pyOrStr raw.full_name
      (pyStrip (raw.first_name.getD "" ++ " " ++ raw.last_name.getD ""))
  { email := email, company := company, domain := domain,
    full_name := full_name, country := raw.country, title := raw.title,
    source := raw.source }

/-- `REQUIRED_FIELDS` and the missing-field comprehension of `capture`:
the required names whose normalized value is falsy, in declaration order. -/
def missingFields (n : Normalized) : List String :=
  (["email", "company", "full_name"]).filter fun f =>
    if f == "email" then n.email == ""
    else if f == "company" then !(truthy n.company)
    else n.full_name == ""

/-- The `capture` stage: normalize, validate (appending at most one combined
error entry), set `normalized` and `lead_id`. -/
def capture (s : LeadState) : LeadState :=
  let n := normalize s.raw
  let missing := missingFields n
  let errors := if missing.isEmpty then s.errors
    else s.errors ++ [ErrEntry.missingRequired missing]
  { s with errors := errors, normalized := some n,
           lead_id := some (pyOrStr s.raw.id n.email) }

/-! ## Enrich stage (`graph/nodes/enrich.py`) -/

/-- The `enrich` stage.  `eo` is the outcome of the
`enrich_domain_person` collaborator call: `.ok` a result, `.error` a raised
exception (whose message tags the error entry). -/
def enrich (eo : Except String Enr) (s : LeadState) : LeadState :=
  let domainT := truthy (s.normalized.map (·.domain))
  let emailT := truthy (s.normalized.map (·.email))
  if !domainT && !emailT then
    { s with enrichment := some {} }
  else
    match eo with
    | .ok d => { s with enrichment := some d }
    | .error c =>
        { s with errors := s.errors ++ [ErrEntry.enrichFailed c],
                 enrichment := some {} }

/-! ## Score stage (`graph/nodes/score.py`) -/

/-- `HARD_RULES["allowed_countries"]`. -/
def allowedCountries : List String := ["US", "CA", "UK", "DE", "FR", "MA"]

/-- The ICP industry set of `rule_score`. -/
def icpIndustries : List String :=
  ["saas", "fintech", "ecommerce", "healthtech", "edtech"]

/-- The buying-authority title keywords of `rule_score`. -/
def buyingRoles : List String :=
  ["head", "lead", "director", "vp", "cxo", "chief", "manager"]

/-- The free-mail domains penalized by `rule_score`. -/
def freeDomains : List String :=
  ["gmail.com", "yahoo.com", "outlook.com", "hotmail.com"]

/-- `rule_score`: the deterministic rule-based scorer, clamped to [0,1]
at the end exactly as the source does. -/
def rule_score (s : LeadState) : ℚ :=
  let e := s.enrichment.getD {}
  let norm := s.normalized
  let company := e.company.getD {}
  let headcount := company.employees.getD 0
  let s1 : ℚ := if headcount ≥ 20 then
      (if headcount ≥ 100 then 3/10 + 1/10 else 3/10) else 0
  let industry := pyLower (company.industry.getD "")
  let s2 := if industry ∈ icpIndustries then s1 + 2/10 else s1
  let title := pyLower ((norm.bind (·.title)).getD "")
  let s3 := if buyingRoles.any (fun role => containsSub role title) then
      s2 + 2/10 else s2
  let country := pyUpper ((norm.bind (·.country)).getD "")
  let s4 := if country ∈ allowedCountries then s3 + 1/10 else s3
  let email := (norm.map (·.email)).getD ""
  let s5 := if freeDomains.any (fun d => pyEndsWith email d) then
      s4 - 4/10 else s4
  let tech := company.tech.getD []
  let s6 := if !tech.isEmpty then s5 + 1/10 else s5
  max 0 (min 1 s6)

/-- The `score` stage.  `llm` is the outcome of the
`score_lead_with_rubric` collaborator call; on success the rule and model
scores are combined 50/50 and clamped, on failure the stage falls back to
the rule score alone and records an error. -/
def score (llm : Except String (ℚ × List String)) (s : LeadState) :
    LeadState :=
  let base := rule_score s
  match llm with
  | .ok (llmScore, reasons) =>
      { s with score := some (max 0 (min 1 (1/2 * base + 1/2 * llmScore))),
               score_reasons := reasons }
  | .error c =>
      { s with errors := s.errors ++ [ErrEntry.llmFailed c],
               score := some base,
               score_reasons := ["Rule-based scoring only (LLM failed)"] }

/-! ## Route stage (`graph/nodes/route.py`) -/

/-- Outcome of reading the routing configuration file. -/
inductive FileResult where
  | found (table : List (String × String))
  | notFound
  | badJson
  deriving DecidableEq

/-- `load_routing_rules`: the parsed file, or the built-in default table
when the file is missing, or the minimal table on malformed JSON. -/
def load_routing_rules : FileResult → List (String × String)
  | .found t => t
  | .notFound =>
      [("US", "us-team@company.com"), ("CA", "canada-team@company.com"),
       ("UK", "emea-team@company.com"), ("DEFAULT", "general@company.com")]
  | .badJson => [("DEFAULT", "general@company.com")]

/-- Dict lookup in a routing table. -/
def lookupTable (t : List (String × String)) (k : String) : Option String :=
  (t.find? (fun p => p.1 == k)).map (·.2)

/-- The country value interpolated into `route_reason`:
`state.get("normalized", {}).get("country", "unknown")`, where a stored
Python `None` prints as `"None"`. -/
def routeCountry (s : LeadState) : String :=
  match s.normalized with
  | none => "unknown"
  | some n => match n.country with
    | some c => c
    | none => "None"

/-- The `route` stage.  `fr` is the routing-file outcome, `ownerO` the
outcome of `find_owner_by_rules`, `crmO` the outcome of
`create_or_update_contact` (an `.ok` value is the returned record: `none`
for a `None` record, otherwise `some` of its `id` field). -/
def route (fr : FileResult) (ownerO : Except String String)
    (crmO : Except String (Option (Option String))) (s : LeadState) :
    LeadState :=
  match ownerO with
  | .error c =>
      { s with errors := s.errors ++ [ErrEntry.routingFailed c],
               owner := some ((lookupTable (load_routing_rules fr)
                 "DEFAULT").getD "unassigned@company.com"),
               route_reason := some RouteReason.fallbackRoutingError }
  | .ok owner =>
      let s1 := { s with owner := some owner }
      let s2 := match crmO with
        | .ok record => { s1 with crm_record_id := some record.join }
        | .error c =>
            { s1 with errors := s1.errors ++ [ErrEntry.crmFailed c],
                      crm_record_id := some none }
      { s2 with route_reason := some (RouteReason.matched (routeCountry s)
          owner) }

/-! ## Summarize stage (`graph/nodes/summarize.py`) -/

/-- The `summarize` stage.  `simO` is the outcome of `similar_accounts`,
`sumO` the outcome of `summarize_for_ae`.  An inner model failure degrades
to the deterministic template; an outer similarity failure degrades to an
empty account list and the constant failure summary. -/
def summarize (simO : Except String (List SimAccount))
    (sumO : Except String String) (s : LeadState) : LeadState :=
  match simO with
  | .error c =>
      { s with errors := s.errors ++ [ErrEntry.summarizeFailed c],
               similar_accounts := some [],
               summary := some Summary.generationFailed }
  | .ok accs =>
      let s1 := { s with similar_accounts := some accs }
      match sumO with
      | .ok txt => { s1 with summary := some (Summary.fromModel txt) }
      | .error c =>
          { s1 with errors := s1.errors ++ [ErrEntry.llmSummaryFailed c],
                    summary := some (Summary.template s.normalized
                      (s.score.getD 0)) }

/-! ## Nurture stage (`graph/nodes/nurture.py`) -/

/-- The `nurture` stage: deterministic, no collaborators; assigns
`decided_path = "nurture"` (counted by `dpWrites`) and synthesizes the
nurture records from existing state fields. -/
def nurture (s : LeadState) : LeadState :=
  { s with decided_path := some "nurture", dpWrites := s.dpWrites + 1,
           nurture_data := some
             { sequence_name := "low_score_nurture",
               score := s.score.getD 0, reasons := s.score_reasons },
           nurture_task := some s.lead_id,
           email_sequence := true }

/-! ## Branch decision and graph wiring (`app.py`) -/

/-- The node label returned by `branch_decision`. -/
inductive NextNode where
  | route
  | nurture
  | summarize
  deriving DecidableEq

/-- `branch_decision` from `app.py`: reads `score` (default 0) and `owner`
(Python truthiness), assigns `decided_path` on the nurture and
manual-review branches, and returns the next node label. -/
def branch_decision (s : LeadState) : LeadState × NextNode :=
  let score_val := s.score.getD 0
  if 7/10 ≤ score_val ∧ truthy s.owner then
    (s, NextNode.route)
  else if score_val < 4/10 then
    ({ s with decided_path := some "nurture", dpWrites := s.dpWrites + 1 },
     NextNode.nurture)
  else
    ({ s with decided_path := some "manual_review",
              dpWrites := s.dpWrites + 1 },
     NextNode.summarize)

/-- All collaborator outcomes for one pipeline run. -/
structure Oracles where
  enrichO : Except String Enr
  llmO : Except String (ℚ × List String)
  routingFile : FileResult
  ownerO : Except String String
  crmO : Except String (Option (Option String))
  simO : Except String (List SimAccount)
  sumO : Except String String

/-- One pass of the compiled workflow of `build_workflow`:
`capture → enrich → score`, then the branch decision selects `route`
(continuing to `summarize`), `nurture` (terminal) or `summarize`
(terminal). -/
def pipeline (o : Oracles) (p : Payload) : LeadState :=
  let s3 := score o.llmO (enrich o.enrichO (capture (initState p)))
  match branch_decision s3 with
  | (s4, NextNode.route) =>
      summarize o.simO o.sumO (route o.routingFile o.ownerO o.crmO s4)
  | (s4, NextNode.nurture) => nurture s4
  | (s4, NextNode.summarize) => summarize o.simO o.sumO s4

/-! ## Idempotency guard (`tools/idempotency.py`) -/

/-- The guard after construction: either backed by the shared store (an
association list mapping each key to its expiry instant) or, when the store
was unreachable at construction, by the process-local set. -/
inductive Idem where
  | redisMode (store : List (String × Nat))
  | memMode (keys : List String)
  deriving DecidableEq

/-- Whether `k` is live (present and unexpired) in the shared store at
instant `now`: a key set with expiry `e` answers SET-NX failure exactly
while `now < e`. -/
def live (store : List (String × Nat)) (now : Nat) (k : String) : Bool :=
  match store.find? (fun p => p.1 == k) with
  | some p => decide (now < p.2)
  | none => false

/-- `Idem.check_and_set`: rejects the empty key; in shared-store mode
performs an atomic set-if-absent with expiry `now + ttl` (`storeFail`
models the store call raising, in which case the guard fails open and
admits); in process-local mode tests and inserts into the set, which
cannot raise and never expires entries. -/
def check_and_set (g : Idem) (now : Nat) (storeFail : Bool) (key : String)
    (ttl : Nat) : Bool × Idem :=
  if key == "" then (false, g)
  else
    match g with
    | Idem.redisMode store =>
        if storeFail then (true, g)
        else if live store now key then (false, g)
        else (true, Idem.redisMode ((key, now + ttl) :: store))
    | Idem.memMode keys =>
        if key ∈ keys then (false, g)
        else (true, Idem.memMode (key :: keys))

/-- Fold a list of further `check_and_set` calls
(`(now, storeFail, key, ttl)` each) over a guard. -/
def runCalls (g : Idem) : List (Nat × Bool × String × Nat) → Idem
  | [] => g
  | (now, fl, k, ttl) :: rest =>
      runCalls (check_and_set g now fl k ttl).2 rest

/-! ## Concrete scenario inputs -/

/-- Scenario A payload from the spec's testable properties. -/
def payloadA : Payload :=
  { email := some "j@acme.com", company := some "Acme",
    full_name := some "J Doe", title := some "Director",
    country := some "US" }

/-- Scenario A enrichment: headcount 150, industry "saas", nothing else. -/
def enrA : Enr :=
  { company := some { employees := some 150, industry := some "saas" } }

/-- Scenario A state entering the score stage. -/
def s2A : LeadState := enrich (Except.ok enrA) (capture (initState payloadA))

/-- A run in which every collaborator raises. -/
def allFailOracles : Oracles :=
  { enrichO := Except.error "provider down",
    llmO := Except.error "model down",
    routingFile := FileResult.notFound,
    ownerO := Except.error "crm down",
    crmO := Except.error "crm down",
    simO := Except.error "index down",
    sumO := Except.error "model down" }

/-- A state entering the branch decision with a low score. -/
def lowState : LeadState := { raw := {}, score := some (3/10) }

/-- A state whose normalized record carries an email but no domain. -/
def emailOnlyState : LeadState :=
  { raw := {},
    normalized := some
      { email := "x@y.com", company := none, domain := "",
        full_name := "", country := none, title := none, source := none } }

/-- A payload whose only missing required field is `company`. -/
def payloadMissingCompany : Payload :=
  { email := some "a@b.com", full_name := some "X Y" }

/-! ## Helper lemmas -/

/-- Clamping with `max 0 (min 1 _)` lands in `[0, 1]`. -/
lemma clamp01 (x : ℚ) : 0 ≤ max 0 (min 1 x) ∧ max 0 (min 1 x) ≤ 1 :=
  ⟨le_max_left 0 _, max_le (by norm_num) (min_le_left 1 x)⟩

/-- The rule score is already clamped to `[0, 1]` by its final line. -/
lemma rule_score_clamped (s : LeadState) :
    0 ≤ rule_score s ∧ rule_score s ≤ 1 := by
  unfold rule_score
  exact clamp01 _

lemma capture_raw (s : LeadState) : (capture s).raw = s.raw := rfl

lemma capture_owner (s : LeadState) : (capture s).owner = s.owner := rfl

lemma capture_dpWrites (s : LeadState) : (capture s).dpWrites = s.dpWrites :=
  rfl

lemma capture_score (s : LeadState) : (capture s).score = s.score := rfl

lemma enrich_raw (eo : Except String Enr) (s : LeadState) :
    (enrich eo s).raw = s.raw := by
  simp only [enrich]
  split
  · rfl
  · split <;> rfl

lemma enrich_owner (eo : Except String Enr) (s : LeadState) :
    (enrich eo s).owner = s.owner := by
  simp only [enrich]
  split
  · rfl
  · split <;> rfl

lemma enrich_dpWrites (eo : Except String Enr) (s : LeadState) :
    (enrich eo s).dpWrites = s.dpWrites := by
  simp only [enrich]
  split
  · rfl
  · split <;> rfl

lemma score_raw (llm : Except String (ℚ × List String)) (s : LeadState) :
    (score llm s).raw = s.raw := by
  cases llm <;> rfl

lemma score_owner (llm : Except String (ℚ × List String)) (s : LeadState) :
    (score llm s).owner = s.owner := by
  cases llm <;> rfl

lemma score_dpWrites (llm : Except String (ℚ × List String))
    (s : LeadState) : (score llm s).dpWrites = s.dpWrites := by
  cases llm <;> rfl

lemma route_raw (fr : FileResult) (ownerO : Except String String)
    (crmO : Except String (Option (Option String))) (s : LeadState) :
    (route fr ownerO crmO s).raw = s.raw := by
  cases ownerO with
  | error c => rfl
  | ok o => cases crmO <;> rfl

lemma summarize_raw (simO : Except String (List SimAccount))
    (sumO : Except String String) (s : LeadState) :
    (summarize simO sumO s).raw = s.raw := by
  cases simO with
  | error c => rfl
  | ok a => cases sumO <;> rfl

lemma summarize_decided_path (simO : Except String (List SimAccount))
    (sumO : Except String String) (s : LeadState) :
    (summarize simO sumO s).decided_path = s.decided_path := by
  cases simO with
  | error c => rfl
  | ok a => cases sumO <;> rfl

lemma summarize_dpWrites (simO : Except String (List SimAccount))
    (sumO : Except String String) (s : LeadState) :
    (summarize simO sumO s).dpWrites = s.dpWrites := by
  cases simO with
  | error c => rfl
  | ok a => cases sumO <;> rfl

lemma nurture_raw (s : LeadState) : (nurture s).raw = s.raw := rfl

/-! ## Claim theorems -/

/-- C2.  Clamping law: for every input state and every model-scorer outcome
(returned value or raised exception), the score stored by the `score`
stage exists and lies in `[0, 1]`. -/
theorem score_clamped (s : LeadState) (llm : Except String (ℚ × List String)) :
    ∃ v : ℚ, (score llm s).score = some v ∧ 0 ≤ v ∧ v ≤ 1 := by
  cases llm with
  | ok p =>
      exact ⟨_, rfl, clamp01 _⟩
  | error c =>
      exact ⟨rule_score s, rfl, rule_score_clamped s⟩

/-- C9.  Frame property: every stage function returns a state whose `raw`
field is exactly the input's `raw` field. -/
theorem stages_preserve_raw (s : LeadState) (eo : Except String Enr)
    (llm : Except String (ℚ × List String)) (fr : FileResult)
    (ownerO : Except String String)
    (crmO : Except String (Option (Option String)))
    (simO : Except String (List SimAccount)) (sumO : Except String String) :
    (capture s).raw = s.raw ∧ (enrich eo s).raw = s.raw ∧
    (score llm s).raw = s.raw ∧ (route fr ownerO crmO s).raw = s.raw ∧
    (summarize simO sumO s).raw = s.raw ∧ (nurture s).raw = s.raw :=
  ⟨capture_raw s, enrich_raw eo s, score_raw llm s, route_raw fr ownerO crmO s,
   summarize_raw simO sumO s, nurture_raw s⟩

/-- C1.  Branch law: for a state entering the branch decision with a stored
score, `score < 0.4` assigns `decided_path = "nurture"` and selects the
nurture stage; `0.4 ≤ score` with either `score < 0.7` or a falsy owner
assigns `decided_path = "manual_review"` and selects the summarize stage;
the route stage is selected exactly when `score ≥ 0.7` and the owner is
set (truthy). -/
theorem branch_decision_law (s : LeadState) (sc : ℚ) (h : s.score = some sc) :
    (sc < 4/10 → (branch_decision s).2 = NextNode.nurture ∧
      (branch_decision s).1.decided_path = some "nurture") ∧
    (4/10 ≤ sc ∧ (sc < 7/10 ∨ truthy s.owner = false) →
      (branch_decision s).2 = NextNode.summarize ∧
      (branch_decision s).1.decided_path = some "manual_review") ∧
    ((branch_decision s).2 = NextNode.route ↔
      7/10 ≤ sc ∧ truthy s.owner = true) := by
  unfold branch_decision
  rw [h]
  simp only [Option.getD_some]
  split_ifs with h1 h2
  · refine ⟨fun hlt => absurd h1.1 (by linarith), fun hm => ?_, ?_⟩
    · rcases hm.2 with hlt | how
      · exact absurd h1.1 (by linarith)
      · rw [h1.2] at how; cases how
    · exact ⟨fun _ => h1, fun _ => rfl⟩
  · refine ⟨fun _ => ⟨rfl, rfl⟩, fun hm => absurd hm.1 (by linarith), ?_⟩
    constructor
    · intro hx; cases hx
    · intro hx; exact absurd hx h1
  · refine ⟨fun hlt => absurd hlt h2, fun _ => ⟨rfl, rfl⟩, ?_⟩
    constructor
    · intro hx; cases hx
    · intro hx; exact absurd hx h1

/-- Witness for C1: a concrete state with score 0.3 goes to nurture with
`decided_path = "nurture"`. -/
theorem branch_decision_law_witness :
    (branch_decision lowState).2 = NextNode.nurture ∧
    (branch_decision lowState).1.decided_path = some "nurture" :=
  (branch_decision_law lowState (3/10) rfl).1 (by norm_num)

/-- C5.  Capture validation: the missing-fields list contains exactly the
required field names whose normalized value is falsy; when it is non-empty
`capture` appends exactly one combined error entry carrying that whole
list, and when it is empty no validation error is appended; in both cases
`normalized` and `lead_id` are populated and the stage returns normally. -/
theorem capture_validation (s : LeadState) :
    (∀ f, f ∈ missingFields (normalize s.raw) ↔
      ((f = "email" ∧ (normalize s.raw).email = "") ∨
       (f = "company" ∧ truthy (normalize s.raw).company = false) ∨
       (f = "full_name" ∧ (normalize s.raw).full_name = ""))) ∧
    (missingFields (normalize s.raw) ≠ [] →
      (capture s).errors =
        s.errors ++
          [ErrEntry.missingRequired (missingFields (normalize s.raw))]) ∧
    (missingFields (normalize s.raw) = [] → (capture s).errors = s.errors) ∧
    (capture s).normalized = some (normalize s.raw) ∧
    (capture s).lead_id = some (pyOrStr s.raw.id (normalize s.raw).email) := by
  refine ⟨?_, ?_, ?_, rfl, rfl⟩
  · intro f
    simp only [missingFields, List.mem_filter, List.mem_cons,
      List.not_mem_nil, or_false]
    constructor
    · rintro ⟨hf | hf | hf, hp⟩ <;> subst hf <;> simp_all [beq_iff_eq]
    · rintro (⟨hf, hv⟩ | ⟨hf, hv⟩ | ⟨hf, hv⟩) <;> subst hf <;>
        simp_all [beq_iff_eq]
  · intro hne
    simp only [capture, List.isEmpty_iff]
    rw [if_neg hne]
  · intro he
    simp only [capture, List.isEmpty_iff]
    rw [if_pos he]

/-- Witness for C5: a payload missing only `company` yields exactly one
combined error entry listing `company`. -/
theorem capture_validation_witness :
    (capture (initState payloadMissingCompany)).errors =
      [ErrEntry.missingRequired ["company"]] :=
  ((capture_validation (initState payloadMissingCompany)).2.1
    (by decide)).trans (by decide)

/-- C6.  Enrich degradation: when the normalized domain and email are both
falsy, `enrich` stores `enrichment = {}` and appends no error (for any
collaborator outcome, since the collaborator is not called); when the
collaborator is called and raises, `enrich` appends one error carrying the
failure cause, stores `enrichment = {}`, and returns normally. -/
theorem enrich_degradation (s : LeadState) (eo : Except String Enr)
    (c : String) :
    (truthy (s.normalized.map (·.domain)) = false →
     truthy (s.normalized.map (·.email)) = false →
     (enrich eo s).enrichment = some {} ∧ (enrich eo s).errors = s.errors) ∧
    ((truthy (s.normalized.map (·.domain)) = true ∨
      truthy (s.normalized.map (·.email)) = true) →
     (enrich (Except.error c) s).enrichment = some {} ∧
     (enrich (Except.error c) s).errors =
       s.errors ++ [ErrEntry.enrichFailed c]) := by
  constructor
  · intro hd he
    simp only [enrich, hd, he]
    split
    · exact ⟨rfl, rfl⟩
    · simp_all
  · intro hor
    have hcond : (!truthy (s.normalized.map (·.domain)) &&
        !truthy (s.normalized.map (·.email))) = false := by
      rcases hor with h | h <;> simp [h]
    simp only [enrich, hcond]
    simp

/-- Witness for C6: with an email present and the collaborator raising,
`enrichment` degrades to `{}` and one tagged error is recorded. -/
theorem enrich_degradation_witness :
    (enrich (Except.error "provider down") emailOnlyState).enrichment =
      some {} ∧
    (enrich (Except.error "provider down") emailOnlyState).errors =
      [ErrEntry.enrichFailed "provider down"] :=
  ((enrich_degradation emailOnlyState
      (Except.error "provider down") "provider down").2 (Or.inr (by decide)))

/-- C7.  Route fallback: when owner resolution raises, `route` sets the
owner to the routing table's `DEFAULT` entry, sets `route_reason` to the
fallback-due-to-routing-error reason, appends one error, and completes;
when only the CRM upsert raises, `crm_record_id` is set to null, one error
is appended, and the stage completes with the resolved owner and the
matched-territory `route_reason`. -/
theorem route_fallback (s : LeadState) (fr : FileResult) (c cc ow : String)
    (crmO : Except String (Option (Option String))) (d : String)
    (hd : lookupTable (load_routing_rules fr) "DEFAULT" = some d) :
    ((route fr (Except.error c) crmO s).owner = some d ∧
     (route fr (Except.error c) crmO s).route_reason =
       some RouteReason.fallbackRoutingError ∧
     (route fr (Except.error c) crmO s).errors =
       s.errors ++ [ErrEntry.routingFailed c]) ∧
    ((route fr (Except.ok ow) (Except.error cc) s).crm_record_id =
       some none ∧
     (route fr (Except.ok ow) (Except.error cc) s).errors =
       s.errors ++ [ErrEntry.crmFailed cc] ∧
     (route fr (Except.ok ow) (Except.error cc) s).owner = some ow ∧
     (route fr (Except.ok ow) (Except.error cc) s).route_reason =
       some (RouteReason.matched (routeCountry s) ow)) := by
  constructor
  · simp [route, hd]
  · simp [route]

/-- Witness for C7: with the built-in default routing table and both
collaborators raising, the owner falls back to the `DEFAULT` entry with
the fallback reason and one routing error. -/
theorem route_fallback_witness :
    (route FileResult.notFound (Except.error "boom")
        (Except.error "crm boom") lowState).owner =
      some "general@company.com" ∧
    (route FileResult.notFound (Except.error "boom")
        (Except.error "crm boom") lowState).route_reason =
      some RouteReason.fallbackRoutingError ∧
    (route FileResult.notFound (Except.error "boom")
        (Except.error "crm boom") lowState).errors =
      [ErrEntry.routingFailed "boom"] :=
  (route_fallback lowState FileResult.notFound "boom" "crm boom" "o"
      (Except.error "crm boom") "general@company.com" (by decide)).1

/-- Association-list step: with the store reachable, a key that is not live
is admitted and recorded with expiry `now + ttl`. -/
lemma check_and_set_fresh {store : List (String × Nat)} {now ttl : Nat}
    {k : String} (hkb : (k == "") = false) (hlive : live store now k = false) :
    check_and_set (Idem.redisMode store) now false k ttl =
      (true, Idem.redisMode ((k, now + ttl) :: store)) := by
  simp [check_and_set, hkb, hlive]

/-- A store entry for a different key does not affect liveness. -/
lemma live_cons_ne {store : List (String × Nat)} {now e : Nat}
    {k k2 : String} (hne : (k == k2) = false) :
    live ((k, e) :: store) now k2 = live store now k2 := by
  simp [live, List.find?, hne]

/-- C3.  Idempotency guard: with the shared store reachable, a non-empty
fresh key admitted at `now1` is rejected on a second call at any
`now2 < now1 + ttl`; two distinct non-empty fresh keys are both admitted;
and the empty key is never admitted, in either guard mode. -/
theorem check_and_set_idempotency :
    (∀ (store : List (String × Nat)) (now1 now2 ttl : Nat) (k : String),
       k ≠ "" → live store now1 k = false → now2 < now1 + ttl →
       (check_and_set (Idem.redisMode store) now1 false k ttl).1 = true ∧
       (check_and_set
          (check_and_set (Idem.redisMode store) now1 false k ttl).2
          now2 false k ttl).1 = false) ∧
    (∀ (store : List (String × Nat)) (now ttl : Nat) (k1 k2 : String),
       k1 ≠ "" → k2 ≠ "" → k1 ≠ k2 →
       live store now k1 = false → live store now k2 = false →
       (check_and_set (Idem.redisMode store) now false k1 ttl).1 = true ∧
       (check_and_set
          (check_and_set (Idem.redisMode store) now false k1 ttl).2
          now false k2 ttl).1 = true) ∧
    (∀ (g : Idem) (now ttl : Nat) (fl : Bool),
       (check_and_set g now fl "" ttl).1 = false) := by
  refine ⟨?_, ?_, ?_⟩
  · intro store now1 now2 ttl k hk hlive hwin
    have hkb : (k == "") = false := by simpa using hk
    rw [check_and_set_fresh hkb hlive]
    have hlive2 : live ((k, now1 + ttl) :: store) now2 k = true := by
      simp [live, List.find?, hwin]
    exact ⟨rfl, by simp [check_and_set, hkb, hlive2]⟩
  · intro store now ttl k1 k2 hk1 hk2 hne hl1 hl2
    have hk1b : (k1 == "") = false := by simpa using hk1
    have hk2b : (k2 == "") = false := by simpa using hk2
    have hneb : (k1 == k2) = false := by simpa using hne
    rw [check_and_set_fresh hk1b hl1]
    have hl2' : live ((k1, now + ttl) :: store) now k2 = false :=
      (live_cons_ne hneb).trans hl2
    exact ⟨rfl, by simp [check_and_set, hk2b, hl2']⟩
  · intro g now ttl fl
    simp [check_and_set]

/-- Witness for C3: concrete duplicate, distinct-keys and empty-key calls. -/
theorem check_and_set_idempotency_witness :
    ((check_and_set (Idem.redisMode []) 0 false "a" 3600).1 = true ∧
     (check_and_set (check_and_set (Idem.redisMode []) 0 false "a" 3600).2
        5 false "a" 3600).1 = false) ∧
    ((check_and_set (Idem.redisMode []) 0 false "b" 3600).1 = true ∧
     (check_and_set (check_and_set (Idem.redisMode []) 0 false "b" 3600).2
        0 false "c" 3600).1 = true) ∧
    (check_and_set (Idem.memMode []) 0 false "" 3600).1 = false :=
  ⟨check_and_set_idempotency.1 [] 0 5 3600 "a" (by decide) (by decide)
     (by decide),
   check_and_set_idempotency.2.1 [] 0 3600 "b" "c" (by decide) (by decide)
     (by decide) (by decide) (by decide),
   check_and_set_idempotency.2.2 (Idem.memMode []) 0 3600 false⟩

/-- In process-local mode the key set only grows under `check_and_set`:
membership survives any sequence of further calls. -/
lemma runCalls_memMode_mem {k : String}
    (calls : List (Nat × Bool × String × Nat)) :
    ∀ keys : List String, k ∈ keys →
      ∃ keys2, runCalls (Idem.memMode keys) calls = Idem.memMode keys2 ∧
        k ∈ keys2 := by
  induction calls with
  | nil => exact fun keys h => ⟨keys, rfl, h⟩
  | cons call rest ih =>
      intro keys h
      obtain ⟨now, fl, k2, ttl⟩ := call
      by_cases hk2 : (k2 == "") = true
      · simpa [runCalls, check_and_set, hk2] using ih keys h
      · by_cases hmem : k2 ∈ keys
        · simpa [runCalls, check_and_set, hk2, hmem] using ih keys h
        · simpa [runCalls, check_and_set, hk2, hmem] using
            ih (k2 :: keys) (List.mem_cons_of_mem _ h)

/-- C10.  Fallback guard ignores ttl: in process-local mode a non-empty
fresh key is admitted once, and every later `check_and_set` for it — after
any interleaved calls, at any time, with any ttl — returns false. -/
theorem fallback_ignores_ttl (keys : List String) (k : String)
    (now1 t1 : Nat) (fl1 : Bool) (hk : k ≠ "") (hmem : k ∉ keys) :
    (check_and_set (Idem.memMode keys) now1 fl1 k t1).1 = true ∧
    ∀ (calls : List (Nat × Bool × String × Nat)) (now2 t2 : Nat)
      (fl2 : Bool),
      (check_and_set
        (runCalls (check_and_set (Idem.memMode keys) now1 fl1 k t1).2 calls)
        now2 fl2 k t2).1 = false := by
  have hkb : (k == "") = false := by simpa using hk
  have hstep : check_and_set (Idem.memMode keys) now1 fl1 k t1 =
      (true, Idem.memMode (k :: keys)) := by
    simp [check_and_set, hkb, hmem]
  refine ⟨by rw [hstep], ?_⟩
  intro calls now2 t2 fl2
  rw [hstep]
  obtain ⟨keys2, hrun, hkin⟩ :=
    runCalls_memMode_mem calls (k :: keys) (List.mem_cons_self k keys)
  rw [hrun]
  simp [check_and_set, hkb, hkin]

/-- Witness for C10: a key admitted with ttl 1 is still rejected much
later, with a different ttl, after an interleaved call. -/
theorem fallback_ignores_ttl_witness :
    (check_and_set (Idem.memMode []) 0 false "a" 1).1 = true ∧
    (check_and_set
      (runCalls (check_and_set (Idem.memMode []) 0 false "a" 1).2
        [(100, false, "b", 1)]) 999 false "a" 7200).1 = false :=
  ⟨(fallback_ignores_ttl [] "a" 0 1 false (by decide) (by decide)).1,
   (fallback_ignores_ttl [] "a" 0 1 false (by decide) (by decide)).2
     [(100, false, "b", 1)] 999 7200 false⟩

/-- With no owner and a low score, the branch decision assigns nurture. -/
lemma branch_decision_low (s : LeadState) (h : s.owner = none)
    (hlt : s.score.getD 0 < 4/10) :
    branch_decision s =
      ({ s with decided_path := some "nurture", dpWrites := s.dpWrites + 1 },
       NextNode.nurture) := by
  unfold branch_decision
  rw [if_neg, if_pos hlt]
  rintro ⟨-, hb⟩
  rw [h] at hb
  simp [truthy] at hb

/-- With no owner and a non-low score, the branch decision assigns manual
review. -/
lemma branch_decision_mid (s : LeadState) (h : s.owner = none)
    (hge : ¬ s.score.getD 0 < 4/10) :
    branch_decision s =
      ({ s with decided_path := some "manual_review",
                dpWrites := s.dpWrites + 1 },
       NextNode.summarize) := by
  unfold branch_decision
  rw [if_neg, if_neg hge]
  rintro ⟨-, hb⟩
  rw [h] at hb
  simp [truthy] at hb

/-- C8 (amended).  `decided_path` is first assigned by the branch decision;
no later stage ever changes its value.  On the manual-review path it is
written exactly once; on the nurture path the `nurture` stage rewrites the
identical value `"nurture"`, for two writes in total; the route path (which
would leave `decided_path` unassigned) is unreachable because no stage
before the branch sets `owner`. -/
theorem decided_path_write_discipline (o : Oracles) (p : Payload) :
    ((pipeline o p).decided_path = some "nurture" ∧
     (pipeline o p).dpWrites = 2) ∨
    ((pipeline o p).decided_path = some "manual_review" ∧
     (pipeline o p).dpWrites = 1) := by
  have howner :
      (score o.llmO (enrich o.enrichO (capture (initState p)))).owner =
        none := by
    rw [score_owner, enrich_owner, capture_owner]; rfl
  have hdp :
      (score o.llmO (enrich o.enrichO (capture (initState p)))).dpWrites =
        0 := by
    rw [score_dpWrites, enrich_dpWrites, capture_dpWrites]; rfl
  simp only [pipeline]
  by_cases hsc :
      (score o.llmO (enrich o.enrichO
        (capture (initState p)))).score.getD 0 < 4/10
  · left
    rw [branch_decision_low _ howner hsc]
    exact ⟨rfl, by simp [nurture, hdp]⟩
  · right
    rw [branch_decision_mid _ howner hsc]
    refine ⟨?_, ?_⟩
    · rw [summarize_decided_path]
    · rw [summarize_dpWrites]
      simp [hdp]

/-- C8 counterexample: on a concrete nurture-path run the `decided_path`
key is written twice, not exactly once. -/
theorem decided_path_double_write :
    (pipeline allFailOracles ({} : Payload)).dpWrites = 2 ∧
    (pipeline allFailOracles ({} : Payload)).dpWrites ≠ 1 := by
  have h2 : (pipeline allFailOracles ({} : Payload)).dpWrites = 2 := by
    norm_num +decide [pipeline, branch_decision, nurture, score, rule_score,
      capture, initState, enrich, normalize, pyOrStr, pyOr, truthy,
      missingFields, icpIndustries, buyingRoles, allowedCountries,
      freeDomains, summarize, allFailOracles]
  exact ⟨h2, by rw [h2]; decide⟩

/-- C4 counterexample: on the Scenario A inputs the rule score is not 1.0
and the combined score is not 0.925 — the five matched components sum to
0.9 (0.3 headcount + 0.1 bonus + 0.2 industry + 0.2 title + 0.1 country),
so the combined score is 0.875. -/
theorem scenarioA_claim_false :
    rule_score s2A ≠ 1 ∧
    (score (Except.ok (17/20, ["strong ICP fit"])) s2A).score ≠
      some (37/40) := by
  have hr : rule_score s2A = 9/10 := by
    norm_num +decide [rule_score, s2A, enrA, payloadA, capture, initState,
      enrich, normalize, pyOrStr, pyOr, truthy, missingFields, icpIndustries,
      buyingRoles, allowedCountries, freeDomains]
  have hs : (score (Except.ok (17/20, ["strong ICP fit"])) s2A).score =
      some (7/8) := by
    norm_num +decide [score, rule_score, s2A, enrA, payloadA, capture,
      initState, enrich, normalize, pyOrStr, pyOr, truthy, missingFields,
      icpIndustries, buyingRoles, allowedCountries, freeDomains]
  constructor
  · rw [hr]; norm_num
  · rw [hs]
    intro hx
    rw [Option.some_inj] at hx
    norm_num at hx

/-- C4 (amended).  Scenario A: the rule score equals 0.9 and, with the
model scorer returning 0.85, the stored final score equals
clamp(0.5*0.9 + 0.5*0.85) = 0.875. -/
theorem scenarioA_scores :
    rule_score s2A = 9/10 ∧
    (score (Except.ok (17/20, ["strong ICP fit"])) s2A).score =
      some (7/8) := by
  constructor
  · norm_num +decide [rule_score, s2A, enrA, payloadA, capture, initState,
      enrich, normalize, pyOrStr, pyOr, truthy, missingFields, icpIndustries,
      buyingRoles, allowedCountries, freeDomains]
  · norm_num +decide [score, rule_score, s2A, enrA, payloadA, capture,
      initState, enrich, normalize, pyOrStr, pyOr, truthy, missingFields,
      icpIndustries, buyingRoles, allowedCountries, freeDomains]

end LeadRouter
